import Mathlib

/-!
Shallow embedding of src/src/phase1_d2c_remap.c (Ducati-to-Chiron tiler
block remap for TI OMAP processors).

Machine integers are modelled as Nat with explicit reductions modulo 2^32
(the C types bytes_t / uint32_t / unsigned arithmetic) and modulo 2^16
(the 16-bit width and height fields of struct tiler_block_info) exactly at
the places where the C arithmetic stores into those types or can wrap.

The kernel tiler driver, the process-memory mapper (mmap / munmap) and the
session descriptor are external collaborators of this file; they are
modelled as oracle functions packaged in an environment record, and every
driver interaction performed by the code is recorded in an event trace so
that claims about which driver operations were or were not attempted (and
in which order) become statable.

Code of the repository that is outside the provided src/ tree (the utility
headers debug_utils.h, utils.h, tilermem_utils.h and phase1_d2c_remap.h)
is modelled from the spec; each such definition carries a doc comment
starting with "Modelled from the spec:".
-/

/-- PAGE_SIZE platform constant (spec section 4.2: page size is a fixed
platform constant, 4096). -/
def PAGE_SIZE : Nat := 4096

/-- Modulus of 32-bit unsigned C arithmetic (bytes_t, uint32_t). -/
def U32 : Nat := 2 ^ 32

/-- Modulus of the 16-bit dim.area.width / dim.area.height fields of
struct tiler_block_info. -/
def U16 : Nat := 2 ^ 16

/-- Modelled from the spec: TILER_MAX_NUM_BLOCKS, the driver-fixed ceiling
on the number of blocks per buffer (MAX_BLOCKS in the spec).  Defined in
tilermem_utils.h, which is not part of the provided src/ tree; no claim
depends on the concrete value, only on the comparison against it. -/
def TILER_MAX_NUM_BLOCKS : Nat := 16

/-- Modelled from the spec: the generic error status returned by demap
(REMAP_ERR_GENERIC from phase1_d2c_remap.h, which is not part of the
provided src/ tree).  The spec only requires it to be a failure status
distinct from success. -/
def REMAP_ERR_GENERIC : Int := 1

/-- Pixel format of a tiler block (pixel_fmt_t / TILFMT values used by the
source: PAGE, 8BIT, 16BIT, 32BIT). -/
inductive PixelFmt where
  | page : PixelFmt
  | bit8 : PixelFmt
  | bit16 : PixelFmt
  | bit32 : PixelFmt
deriving DecidableEq, Repr, Inhabited

/-- Bytes per pixel for a pixel format; source function def_bpp
(phase1_d2c_remap.c lines 61-65): 4 for 32-bit, 2 for 16-bit, 1 otherwise. -/
def def_bpp (pixelFormat : PixelFmt) : Nat :=
  match pixelFormat with
  | PixelFmt.bit32 => 4
  | PixelFmt.bit16 => 2
  | _ => 1

/-- Default page stride; source function def_stride (lines 76-79):
(PAGE_SIZE - 1 + width) & ~(PAGE_SIZE - 1) in 32-bit unsigned arithmetic,
i.e. the addition wraps modulo 2^32 and the mask clears the low 12 bits. -/
def def_stride (width : Nat) : Nat :=
  ((PAGE_SIZE - 1 + width) % U32) - ((PAGE_SIZE - 1 + width) % U32) % PAGE_SIZE

/-- One tiler block descriptor: struct tiler_block_info as used by the
source.  The C union dim (len for the raw-page format, area.width and
area.height for the pixel formats) is flattened into separate fields; the
source reads only the variant matching the format.  The width and height
fields are 16-bit in C; stores into them are truncated modulo 2^16 at the
store sites below. -/
structure BlockInfo where
  fmt : PixelFmt
  ssptr : Nat
  len : Nat
  width : Nat
  height : Nat
  stride : Nat
deriving DecidableEq, Repr, Inhabited

/-- Size in bytes of a block; source function def_size (lines 184-189):
dim.len for the raw-page format, otherwise
height * def_stride(width * bpp) computed in 32-bit unsigned arithmetic. -/
def def_size (blk : BlockInfo) : Nat :=
  match blk.fmt with
  | PixelFmt.page => blk.len
  | _ => (blk.height * def_stride (blk.width * def_bpp blk.fmt)) % U32

/-- max_alloc_size of the stride resolution (line 246):
(bytes_t)height * PAGE_SIZE in 32-bit unsigned arithmetic. -/
def maxAllocSize (bi : BlockInfo) : Nat :=
  (bi.height * PAGE_SIZE) % U32

/-- min_alloc_size (line 247): max_alloc_size minus 63 pages for the 8-bit
format and 31 pages otherwise; the C subtraction is 32-bit unsigned and
wraps when the reported height is below the subtracted page count. -/
def minAllocSize (bi : BlockInfo) : Nat :=
  (maxAllocSize bi + U32 - (if bi.fmt = PixelFmt.bit8 then 63 else 31) * PAGE_SIZE) % U32

/-- min_page_width (line 248): ceiling division of the caller length by
max_alloc_size, with the additive part of the numerator wrapping
modulo 2^32 as in C. -/
def minPageWidth (bi : BlockInfo) (L : Nat) : Nat :=
  ((L + maxAllocSize bi + U32 - 1) % U32) / maxAllocSize bi

/-- max_page_width before clamping (line 249): ceiling division of the
caller length by min_alloc_size. -/
def maxPageWidthRaw (bi : BlockInfo) (L : Nat) : Nat :=
  ((L + minAllocSize bi + U32 - 1) % U32) / minAllocSize bi

/-- max_page_width after the clamp of lines 250-255: lowered to the
driver-reported width / PAGE_SIZE when it would exceed it. -/
def maxPageWidth (bi : BlockInfo) (L : Nat) : Nat :=
  if bi.width / PAGE_SIZE < maxPageWidthRaw bi L then bi.width / PAGE_SIZE
  else maxPageWidthRaw bi L

/-- Stride resolution for a pixel-format block, lines 246-267 of the
source plus the consistency check CHK_I(min_page_width,<=,max_page_width)
of line 256.  CHK_I is defined in debug_utils.h, which is not part of
the provided src/ tree; Modelled from the spec: a failed geometry check
"is a consistency fault (signals a driver/caller mismatch) and aborts the
remap for that block" without aborting the process, so a failed check is
modelled as returning none.  On success the resolved height and width are
stored into the 16-bit fields (truncation modulo 2^16) and the stride is
set to the stored width, exactly as in lines 264-266. -/
def resolveBlock (bi : BlockInfo) (L : Nat) : Option BlockInfo :=
  if minPageWidth bi L ≤ maxPageWidth bi L then
    some { bi with
           height := (L / PAGE_SIZE / minPageWidth bi L) % U16,
           width := (PAGE_SIZE * minPageWidth bi L / def_bpp bi.fmt) % U16,
           stride := (PAGE_SIZE * minPageWidth bi L / def_bpp bi.fmt) % U16 }
  else none

/-- Per-block geometry finalisation, lines 237-268: for the raw-page
format the caller length is stored into dim.len; otherwise the stride
resolution runs; in both cases the postcondition check
CHK_I(def_size(blk),==,lengths[ix]) of line 268 follows (modelled from the
spec as aborting the call on failure, see resolveBlock). -/
def finishBlock (bi : BlockInfo) (L : Nat) : Option BlockInfo :=
  match (if bi.fmt = PixelFmt.page then some { bi with len := L } else resolveBlock bi L) with
  | none => none
  | some b => if def_size b = L then some b else none

/-- Observable interactions with the external collaborators (driver
session, ioctls, process-memory mapper), in the order they are performed.
queryBlk records the block index and the ssptr value submitted to
TILIOC_QUERY_BLK; munmapCall records the address and length passed to
munmap. -/
inductive Event where
  | openSess : Event
  | queryBlk : Nat → Nat → Event
  | rbuf : Event
  | mmapCall : Event
  | urbuf : Event
  | cacheAdd : Nat → Nat → Event
  | qbuf : Nat → Event
  | munmapCall : Nat → Nat → Event
  | closeSess : Event
deriving DecidableEq, Repr

/-- The buffer-handle cache: the list of (buffer pointer, tiler id) pairs
held in the doubly-linked list bufs, in insertion order. -/
abbrev Cache := List (Nat × Nat)

/-- remap_cache_add (lines 135-144): appends a new record at the tail of
the list (DLIST_MADD_BEFORE inserts before the sentinel). -/
def remap_cache_add (cache : Cache) (bufPtr tiler_id : Nat) : Cache :=
  cache ++ [(bufPtr, tiler_id)]

/-- remap_cache_del (lines 157-173): scans the list front to back for the
first record with the given pointer; if found, removes it and returns the
stored tiler id, otherwise returns 0.  The pair returned here is the
returned id (0 on a miss) together with the cache state afterwards. -/
def remap_cache_del (cache : Cache) (bufPtr : Nat) : Nat × Cache :=
  match cache with
  | [] => (0, [])
  | (q, id) :: rest =>
    if q = bufPtr then (id, rest)
    else ((remap_cache_del rest bufPtr).1, (q, id) :: (remap_cache_del rest bufPtr).2)

/-- Oracle environment for one remap call: whether open("/dev/tiler")
succeeds, the TILIOC_QUERY_BLK reply for a given block index and
submitted ssptr (none models a nonzero ioctl result), the TILIOC_RBUF
reply (none models a nonzero ioctl result, some gives buf.offset), and
the mmap reply for a given length and offset (none models MAP_FAILED). -/
structure RemapEnv where
  openOk : Bool
  query : Nat → Nat → Option BlockInfo
  rbuf : List BlockInfo → Option Nat
  mmap : Nat → Nat → Option Nat

/-- One iteration of the per-block loop, lines 213-268: the device
pointer is used directly as the submitted ssptr (the SysLink translation
call on line 216 is commented out in the source); a zero value is a fault
before any ioctl; otherwise TILIOC_QUERY_BLK is issued and the reply must
be successful with a nonzero ssptr; then the geometry is finalised. -/
def stepBlock (env : RemapEnv) (ix d L : Nat) : List Event × Option BlockInfo :=
  if d = 0 then ([], none)
  else
    match env.query ix d with
    | none => ([Event.queryBlk ix d], none)
    | some bi =>
      if bi.ssptr = 0 then ([Event.queryBlk ix d], none)
      else ([Event.queryBlk ix d], finishBlock bi L)

/-- The per-block loop of remap, iterated from index start for the given
fuel (number of remaining blocks); collects the query events and, on
success, the finished block descriptors in order. -/
def processBlocks (env : RemapEnv) (ds ls : Nat → Nat) :
    Nat → Nat → List Event × Option (List BlockInfo)
  | _, 0 => ([], some [])
  | start, fuel + 1 =>
    match stepBlock env start (ds start) (ls start) with
    | (evs, none) => (evs, none)
    | (evs, some b) =>
      match processBlocks env ds ls (start + 1) fuel with
      | (evs2, none) => (evs ++ evs2, none)
      | (evs2, some bs) => (evs ++ evs2, some (b :: bs))

/-- Accumulated buffer size: size += def_size(blk) over the blocks in
order, in 32-bit unsigned arithmetic (lines 270-272 and 348-352). -/
def totalSize (bs : List BlockInfo) : Nat :=
  bs.foldl (fun a b => (a + def_size b) % U32) 0

/-- blocks[0].ssptr, used for the sub-page pointer fixup of line 286; the
buffer struct was zero-initialised, so an empty list reads 0. -/
def headSsptr (bs : List BlockInfo) : Nat :=
  match bs with
  | [] => 0
  | b :: _ => b.ssptr

/-- Body of remap after the session was opened, lines 210-313: run the
per-block loop; register the buffer (TILIOC_RBUF), requiring a zero ioctl
result and a nonzero offset; mmap the total size at the returned offset;
on mapping failure (or a null adjusted pointer) unregister the buffer
(TILIOC_URBUF) and fail; on success adjust the pointer by the sub-page
offset of the first ssptr and record the (pointer, offset) pair in the
cache.  The session is closed on every path (FAIL label, line 311). -/
def remapBody (env : RemapEnv) (n : Nat) (ds ls : Nat → Nat) (cache : Cache) :
    Option Nat × Cache × List Event :=
  match processBlocks env ds ls 0 n with
  | (evs, none) => (none, cache, Event.openSess :: evs ++ [Event.closeSess])
  | (evs, some bs) =>
    match env.rbuf bs with
    | none => (none, cache, Event.openSess :: evs ++ [Event.rbuf, Event.closeSess])
    | some off =>
      if off = 0 then (none, cache, Event.openSess :: evs ++ [Event.rbuf, Event.closeSess])
      else
        match env.mmap (totalSize bs) off with
        | none =>
          (none, cache,
           Event.openSess :: evs ++ [Event.rbuf, Event.mmapCall, Event.urbuf, Event.closeSess])
        | some base =>
          if base + headSsptr bs % PAGE_SIZE = 0 then
            (none, cache,
             Event.openSess :: evs ++ [Event.rbuf, Event.mmapCall, Event.urbuf, Event.closeSess])
          else
            (some (base + headSsptr bs % PAGE_SIZE),
             remap_cache_add cache (base + headSsptr bs % PAGE_SIZE) off,
             Event.openSess :: evs ++
               [Event.rbuf, Event.mmapCall,
                Event.cacheAdd (base + headSsptr bs % PAGE_SIZE) off, Event.closeSess])

/-- tiler_assisted_phase1_D2CReMap (lines 191-314).  num_blocks is a C
int; the guard of line 197 rejects num_blocks <= 0 and
num_blocks > TILER_MAX_NUM_BLOCKS before any driver interaction; the
open of line 207 is attempted next and its failure also returns null.
The result is the returned pointer (none for NULL), the cache state after
the call and the trace of driver interactions. -/
def tiler_assisted_phase1_D2CReMap (env : RemapEnv) (numBlocks : Int)
    (ds ls : Nat → Nat) (cache : Cache) : Option Nat × Cache × List Event :=
  if numBlocks ≤ 0 ∨ (TILER_MAX_NUM_BLOCKS : Int) < numBlocks then (none, cache, [])
  else if env.openOk then remapBody env numBlocks.toNat ds ls cache
  else (none, cache, [])

/-- Modelled from the spec: ERR_ADD from utils.h (not part of the provided
src/ tree) accumulates the error of the second operation into the result
code without replacing an error already present. -/
def ERR_ADD (err e : Int) : Int :=
  if err ≠ 0 then err else e

/-- Modelled from the spec: ROUND_DOWN_TO2POW from utils.h (not part of
the provided src/ tree), the page-aligned floor of an address. -/
def ROUND_DOWN_TO2POW (x p : Nat) : Nat :=
  x - x % p

/-- Oracle environment for one demap call: whether open("/dev/tiler")
succeeds, the TILIOC_QBUF reply for a buffer id (the ioctl result code
and the block list filled into the buffer struct), the TILIOC_URBUF
result code for a buffer id, and the munmap result code for an address
and a length. -/
structure DemapEnv where
  openOk : Bool
  qbuf : Nat → Int × List BlockInfo
  urbuf : Nat → Int
  munmap : Nat → Nat → Int

/-- tiler_assisted_phase1_DeMap (lines 316-361).  ret starts as the
generic error; open failure returns it with the cache untouched; the
cache entry for the pointer is removed first (line 330, before the guard
of line 332); with a nonzero recovered id, TILIOC_QBUF runs and its
result code becomes ret; only when it is zero do TILIOC_URBUF and the
munmap of the page-aligned floor of the pointer over the accumulated
block sizes follow, with the munmap error folded in through ERR_ADD. -/
def tiler_assisted_phase1_DeMap (env : DemapEnv) (p : Nat) (cache : Cache) :
    Int × Cache × List Event :=
  if env.openOk then
    if (remap_cache_del cache p).1 ≠ 0 then
      if (env.qbuf (remap_cache_del cache p).1).1 = 0 then
        (ERR_ADD (env.urbuf (remap_cache_del cache p).1)
           (env.munmap (ROUND_DOWN_TO2POW p PAGE_SIZE)
             (totalSize (env.qbuf (remap_cache_del cache p).1).2)),
         (remap_cache_del cache p).2,
         [Event.openSess, Event.qbuf (remap_cache_del cache p).1, Event.urbuf,
          Event.munmapCall (ROUND_DOWN_TO2POW p PAGE_SIZE)
            (totalSize (env.qbuf (remap_cache_del cache p).1).2),
          Event.closeSess])
      else
        ((env.qbuf (remap_cache_del cache p).1).1, (remap_cache_del cache p).2,
         [Event.openSess, Event.qbuf (remap_cache_del cache p).1, Event.closeSess])
    else (REMAP_ERR_GENERIC, (remap_cache_del cache p).2, [Event.openSess, Event.closeSess])
  else (REMAP_ERR_GENERIC, cache, [])

/-- Geometry fields of a block (width, height, stride), used to state
that the stride resolution depends only on the driver-reported geometry
and the caller length. -/
def blockGeom (b : BlockInfo) : Nat × Nat × Nat :=
  (b.width, b.height, b.stride)

/-! Concrete fixtures used to instantiate the claim theorems on small
inputs: a driver whose query reports raw-page blocks, a driver whose
query reports an 8-bit pixel block, failing mmap and failing buffer-query
variants, and the concrete block descriptors they produce. -/

/-- Driver reply reporting a raw-page block at the submitted ssptr. -/
def pageReply (s : Nat) : BlockInfo :=
  { fmt := PixelFmt.page, ssptr := s, len := 0, width := 0, height := 0, stride := 0 }

/-- Remap environment where every step succeeds: raw-page query replies,
registration offset 7, mapping base 40960. -/
def envOkW : RemapEnv :=
  { openOk := true, query := fun _ s => some (pageReply s),
    rbuf := fun _ => some 7, mmap := fun _ _ => some 40960 }

/-- Demap environment where every step succeeds. -/
def denvOkW : DemapEnv :=
  { openOk := true, qbuf := fun _ => (0, []), urbuf := fun _ => 0, munmap := fun _ _ => 0 }

/-- Demap environment whose buffer query (TILIOC_QBUF) fails with code 5. -/
def denvQF : DemapEnv :=
  { openOk := true, qbuf := fun _ => (5, []), urbuf := fun _ => 0, munmap := fun _ _ => 0 }

/-- Raw-page block of 4096 bytes at ssptr 5, as produced by a remap of one
block through envOkW. -/
def blkQ : BlockInfo :=
  { fmt := PixelFmt.page, ssptr := 5, len := 4096, width := 0, height := 0, stride := 0 }

/-- Demap environment whose buffer query succeeds with one 4096-byte
raw-page block but whose unregistration fails with code 5 and whose unmap
fails with code 3. -/
def denvErr : DemapEnv :=
  { openOk := true, qbuf := fun _ => (0, [blkQ]), urbuf := fun _ => 5, munmap := fun _ _ => 3 }

/-- Remap environment identical to envOkW except that the mapping step
fails (mmap returns MAP_FAILED). -/
def envMF : RemapEnv :=
  { openOk := true, query := fun _ s => some (pageReply s),
    rbuf := fun _ => some 7, mmap := fun _ _ => none }

/-- Device-pointer array with a single nonzero pointer. -/
def dsW : Nat → Nat := fun _ => 5

/-- Length array supplying 4096 bytes for every block. -/
def lsW : Nat → Nat := fun _ => 4096

/-- Device-pointer array whose second entry is zero (translation fault at
block index 1). -/
def dsW2 : Nat → Nat := fun i => if i = 0 then 5 else 0

/-- Driver-reported 8-bit pixel block: ssptr 9, reported width 8192,
reported height 64. -/
def biX : BlockInfo :=
  { fmt := PixelFmt.bit8, ssptr := 9, len := 0, width := 8192, height := 64, stride := 0 }

/-- Variant of biX differing only in the fields the stride resolution is
not a function of (ssptr and len). -/
def biX2 : BlockInfo :=
  { fmt := PixelFmt.bit8, ssptr := 11, len := 99, width := 8192, height := 64, stride := 0 }

/-- The block obtained by resolving biX against a caller length of
262144 bytes. -/
def bX : BlockInfo :=
  { fmt := PixelFmt.bit8, ssptr := 9, len := 0, width := 4096, height := 64, stride := 4096 }

/-- Driver-reported 32-bit pixel block whose geometry is inconsistent
with a caller length of 1228800 bytes: min_page_width resolves to 3 while
the clamped max_page_width is 1. -/
def biGF : BlockInfo :=
  { fmt := PixelFmt.bit32, ssptr := 9, len := 0, width := 4096, height := 100, stride := 0 }

/-- Length array supplying 1228800 bytes, geometry-inconsistent with the
biGF reply. -/
def lsGF : Nat → Nat := fun _ => 1228800

/-- Remap environment whose driver query reports the geometry-inconsistent
block biGF. -/
def envGF : RemapEnv :=
  { openOk := true, query := fun _ _ => some biGF,
    rbuf := fun _ => some 7, mmap := fun _ _ => some 40960 }

/-! Helper lemmas shared by the claim theorems. -/

lemma ceil_le_mul (L m : Nat) (hm : 0 < m) : L ≤ (L + m - 1) / m * m := by
  rcases Nat.eq_zero_or_pos L with hL | hL
  · simp [hL]
  · have h1 : L + m - 1 = (L - 1) + m := by omega
    rw [h1, Nat.add_div_right _ hm, Nat.add_mul, Nat.one_mul]
    have h2 := Nat.div_add_mod (L - 1) m
    have h3 : (L - 1) % m < m := Nat.mod_lt _ hm
    have h4 : (L - 1) / m * m = m * ((L - 1) / m) := Nat.mul_comm _ _
    rw [h4]
    generalize m * ((L - 1) / m) = D at h2 ⊢
    generalize (L - 1) % m = C at h2 h3
    omega

lemma ceil_pos (L m : Nat) (hL : 0 < L) (hm : 0 < m) : 0 < (L + m - 1) / m :=
  Nat.div_pos (by omega) hm

lemma maxPageWidth_le (bi : BlockInfo) (L : Nat) :
    maxPageWidth bi L ≤ bi.width / PAGE_SIZE := by
  unfold maxPageWidth
  split
  · exact Nat.le_refl _
  · omega

lemma remap_cache_del_fresh (c : Cache) (p : Nat) (h : ∀ e ∈ c, e.1 ≠ p) :
    remap_cache_del c p = (0, c) := by
  induction c with
  | nil => rfl
  | cons a rest ih =>
    rcases a with ⟨q, id⟩
    have hq : q ≠ p := h (q, id) (List.mem_cons_self _ _)
    have hrest := ih (fun e he => h e (List.mem_cons_of_mem _ he))
    simp only [remap_cache_del, if_neg hq, hrest]

lemma remap_cache_del_append (c : Cache) (p off : Nat) (h : ∀ e ∈ c, e.1 ≠ p) :
    remap_cache_del (c ++ [(p, off)]) p = (off, c) := by
  induction c with
  | nil => simp [remap_cache_del]
  | cons a rest ih =>
    rcases a with ⟨q, id⟩
    have hq : q ≠ p := h (q, id) (List.mem_cons_self _ _)
    have hrest := ih (fun e he => h e (List.mem_cons_of_mem _ he))
    simp only [List.cons_append, remap_cache_del, if_neg hq, List.append_eq, hrest]

lemma stepBlock_trace (env : RemapEnv) (ix d L : Nat) (hd : d ≠ 0) :
    (stepBlock env ix d L).1 = [Event.queryBlk ix d] := by
  unfold stepBlock
  rw [if_neg hd]
  cases hq : env.query ix d with
  | none => rfl
  | some bi => by_cases hz : bi.ssptr = 0 <;> simp [hz]

lemma stepBlock_events (env : RemapEnv) (ix d L : Nat) (e : Event)
    (h : e ∈ (stepBlock env ix d L).1) : e = Event.queryBlk ix d := by
  by_cases hd : d = 0
  · rw [hd] at h
    simp [stepBlock] at h
  · rw [stepBlock_trace env ix d L hd] at h
    simpa using h

lemma processBlocks_events (env : RemapEnv) (ds ls : Nat → Nat) :
    ∀ fuel start e, e ∈ (processBlocks env ds ls start fuel).1 →
      ∃ ix d, e = Event.queryBlk ix d := by
  intro fuel
  induction fuel with
  | zero => intro start e h; simp [processBlocks] at h
  | succ f ih =>
    intro start e h
    unfold processBlocks at h
    rcases hs : stepBlock env start (ds start) (ls start) with ⟨evs, ob⟩
    rw [hs] at h
    cases ob with
    | none =>
      exact ⟨start, ds start, stepBlock_events env start (ds start) (ls start) e
        (by rw [hs]; exact h)⟩
    | some b =>
      rcases hp : processBlocks env ds ls (start + 1) f with ⟨evs2, ob2⟩
      rw [hp] at h
      cases ob2 with
      | none =>
        rcases List.mem_append.mp h with h1 | h2
        · exact ⟨start, ds start, stepBlock_events env start (ds start) (ls start) e
            (by rw [hs]; exact h1)⟩
        · exact ih (start + 1) e (by rw [hp]; exact h2)
      | some bs =>
        rcases List.mem_append.mp h with h1 | h2
        · exact ⟨start, ds start, stepBlock_events env start (ds start) (ls start) e
            (by rw [hs]; exact h1)⟩
        · exact ih (start + 1) e (by rw [hp]; exact h2)

lemma processBlocks_reach_none (env : RemapEnv) (ds ls : Nat → Nat) (ix : Nat)
    (hfail : (stepBlock env ix (ds ix) (ls ix)).2 = none) :
    ∀ fuel start, start ≤ ix → ix < start + fuel →
      (∀ j, start ≤ j → j < ix → ((stepBlock env j (ds j) (ls j)).2).isSome = true) →
      (processBlocks env ds ls start fuel).2 = none := by
  intro fuel
  induction fuel with
  | zero => intro start h1 h2 _; exact absurd h2 (by omega)
  | succ f ih =>
    intro start h1 h2 h3
    unfold processBlocks
    rcases Nat.eq_or_lt_of_le h1 with heq | hlt
    · subst heq
      rcases hs : stepBlock env start (ds start) (ls start) with ⟨evs, ob⟩
      rw [hs] at hfail
      simp at hfail
      subst hfail
      rfl
    · have hsome := h3 start (Nat.le_refl _) hlt
      rcases hs : stepBlock env start (ds start) (ls start) with ⟨evs, ob⟩
      rw [hs] at hsome
      cases ob with
      | none => simp at hsome
      | some b =>
        have hrec := ih (start + 1) hlt (by omega) (fun j hj1 hj2 => h3 j (by omega) hj2)
        rcases hp : processBlocks env ds ls (start + 1) f with ⟨evs2, ob2⟩
        rw [hp] at hrec
        simp at hrec
        subst hrec
        rfl

lemma remap_run (env : RemapEnv) (nb : Int) (ds ls : Nat → Nat) (cache : Cache)
    (h0 : 0 < nb) (hmax : nb ≤ (TILER_MAX_NUM_BLOCKS : Int)) (ho : env.openOk = true) :
    tiler_assisted_phase1_D2CReMap env nb ds ls cache = remapBody env nb.toNat ds ls cache := by
  unfold tiler_assisted_phase1_D2CReMap
  rw [if_neg (by omega), ho, if_pos rfl]

lemma remapBody_fail (env : RemapEnv) (n : Nat) (ds ls : Nat → Nat) (cache : Cache)
    (h : (processBlocks env ds ls 0 n).2 = none) :
    remapBody env n ds ls cache =
      (none, cache, Event.openSess :: (processBlocks env ds ls 0 n).1 ++ [Event.closeSess]) := by
  unfold remapBody
  rcases hp : processBlocks env ds ls 0 n with ⟨evs, ob⟩
  rw [hp] at h
  simp at h
  subst h
  rfl

lemma remapBody_mmapFail (env : RemapEnv) (n : Nat) (ds ls : Nat → Nat) (cache : Cache)
    (evs₀ : List Event) (bs : List BlockInfo) (off : Nat)
    (hp : processBlocks env ds ls 0 n = (evs₀, some bs))
    (hreg : env.rbuf bs = some off) (hoff : off ≠ 0)
    (hmm : env.mmap (totalSize bs) off = none) :
    remapBody env n ds ls cache =
      (none, cache,
       Event.openSess :: evs₀ ++ [Event.rbuf, Event.mmapCall, Event.urbuf, Event.closeSess]) := by
  unfold remapBody
  rw [hp]
  simp only [hreg, if_neg hoff, hmm]

lemma remap_success (env : RemapEnv) (nb : Int) (ds ls : Nat → Nat) (cache : Cache)
    (p : Nat) (cache₂ : Cache) (evs : List Event)
    (h : tiler_assisted_phase1_D2CReMap env nb ds ls cache = (some p, cache₂, evs)) :
    ∃ off, off ≠ 0 ∧ cache₂ = cache ++ [(p, off)] := by
  unfold tiler_assisted_phase1_D2CReMap at h
  split at h
  · simp at h
  · split at h
    · unfold remapBody at h
      split at h
      · simp at h
      · split at h
        · simp at h
        · split at h
          · simp at h
          · split at h
            · simp at h
            · split at h
              · simp at h
              · rename_i hrbufeq hoffne xmm basev hmmeq hptrne
                simp only [remap_cache_add, Prod.mk.injEq, Option.some.injEq] at h
                obtain ⟨hp1, hp2, _⟩ := h
                exact ⟨_, hoffne, by rw [← hp2, hp1]⟩
    · simp at h

lemma demap_cache_after_hit (denv : DemapEnv) (p : Nat) (c : Cache)
    (ho : denv.openOk = true) (hne : (remap_cache_del c p).1 ≠ 0) :
    (tiler_assisted_phase1_DeMap denv p c).2.1 = (remap_cache_del c p).2 := by
  unfold tiler_assisted_phase1_DeMap
  rw [ho, if_pos rfl, if_pos hne]
  split <;> rfl

lemma demap_miss_eq (denv : DemapEnv) (p : Nat) (c : Cache)
    (ho : denv.openOk = true) (h0 : (remap_cache_del c p).1 = 0) :
    tiler_assisted_phase1_DeMap denv p c =
      (REMAP_ERR_GENERIC, (remap_cache_del c p).2, [Event.openSess, Event.closeSess]) := by
  unfold tiler_assisted_phase1_DeMap
  rw [ho, if_pos rfl, if_neg (by simp [h0])]

/-- C2: block_size is exactly invertible against the resolver.  For any
raw-page block descriptor carrying length L, def_size returns exactly L;
and for any block (in particular any pixel-format block with
driver-reported geometry) on which the per-block resolution of remap
succeeds, applying def_size to the resolved descriptor returns exactly
the caller-supplied byte length L (the postcondition check of line 268,
modelled from the spec as call-aborting, guarantees this on every
successful path). -/
theorem C2_block_size_inversion (bi : BlockInfo) (L : Nat) :
    def_size { bi with fmt := PixelFmt.page, len := L } = L ∧
    ∀ b, finishBlock bi L = some b → def_size b = L := by
  constructor
  · rfl
  · intro b hb
    unfold finishBlock at hb
    split at hb
    · exact absurd hb (by simp)
    · split at hb
      · simp only [Option.some.injEq] at hb
        subst hb
        assumption
      · exact absurd hb (by simp)

/-- Witness for C2 at concrete inputs: a 4096-byte raw-page descriptor,
and the 8-bit pixel block biX resolved against length 262144. -/
theorem C2_witness :
    def_size { blkQ with fmt := PixelFmt.page, len := 4096 } = 4096 ∧
    def_size bX = 262144 :=
  ⟨(C2_block_size_inversion blkQ 4096).1,
   (C2_block_size_inversion biX 262144).2 bX (by decide)⟩

/-- C3: stride-resolution policy and determinism.  For a pixel-format
block with in-range driver-reported geometry (the 16-bit width and
height fields) and a caller length avoiding 32-bit wrap,
min_page_width is exactly the ceiling of known_length divided by
(reported_height * page_size); whenever the resolution succeeds it sets
height = known_length / page_size / min_page_width,
width = page_size * min_page_width / bytes_per_pixel and stride = width,
so the smaller (narrower) page width is always the one chosen; and the
resolved geometry is a deterministic function of the reported width,
reported height, format and known length only. -/
theorem C3_stride_resolution (bi bi2 : BlockInfo) (L : Nat)
    (_hfmt : bi.fmt ≠ PixelFmt.page)
    (hh1 : 1 ≤ bi.height) (hh2 : bi.height < U16) (hw : bi.width < U16)
    (hL : 1 ≤ L) (hov : L + bi.height * PAGE_SIZE ≤ U32) :
    minPageWidth bi L = (L + bi.height * PAGE_SIZE - 1) / (bi.height * PAGE_SIZE) ∧
    (∀ b, resolveBlock bi L = some b →
      b.height = L / PAGE_SIZE / minPageWidth bi L ∧
      b.width = PAGE_SIZE * minPageWidth bi L / def_bpp bi.fmt ∧
      b.stride = b.width) ∧
    (bi2.fmt = bi.fmt → bi2.width = bi.width → bi2.height = bi.height →
      Option.map blockGeom (resolveBlock bi2 L) = Option.map blockGeom (resolveBlock bi L)) := by
  have hP : (0 : Nat) < PAGE_SIZE := by norm_num [PAGE_SIZE]
  have hU32 : U32 = 4294967296 := by norm_num [U32]
  have hU16 : U16 = 65536 := by norm_num [U16]
  have hPS : PAGE_SIZE = 4096 := rfl
  have hh2n : bi.height < 65536 := by rw [← hU16]; exact hh2
  have hMA : maxAllocSize bi = bi.height * PAGE_SIZE := by
    unfold maxAllocSize
    apply Nat.mod_eq_of_lt
    rw [hPS, hU32]
    omega
  have hmw : minPageWidth bi L = (L + bi.height * PAGE_SIZE - 1) / (bi.height * PAGE_SIZE) := by
    have e1 : ∀ a c : Nat, L + a + c - 1 = (L + a - 1) + c := by
      intro a c
      omega
    have e3 : L + bi.height * PAGE_SIZE - 1 < U32 := by
      have h2 := hov
      generalize bi.height * PAGE_SIZE = A at h2 ⊢
      generalize U32 = B at h2 ⊢
      omega
    unfold minPageWidth
    rw [hMA, e1 (bi.height * PAGE_SIZE) U32, Nat.add_mod_right, Nat.mod_eq_of_lt e3]
  have hHPpos : 0 < bi.height * PAGE_SIZE := Nat.mul_pos hh1 hP
  have hm1 : 0 < minPageWidth bi L := by
    rw [hmw]; exact ceil_pos L _ hL hHPpos
  have hceil : L ≤ minPageWidth bi L * (bi.height * PAGE_SIZE) := by
    rw [hmw]; exact ceil_le_mul L _ hHPpos
  have hhb : L / PAGE_SIZE / minPageWidth bi L ≤ bi.height := by
    rw [Nat.div_div_eq_div_mul]
    have h1 : L ≤ bi.height * (PAGE_SIZE * minPageWidth bi L) := by
      calc L ≤ minPageWidth bi L * (bi.height * PAGE_SIZE) := hceil
        _ = bi.height * (PAGE_SIZE * minPageWidth bi L) := by ring
    calc L / (PAGE_SIZE * minPageWidth bi L)
        ≤ bi.height * (PAGE_SIZE * minPageWidth bi L) / (PAGE_SIZE * minPageWidth bi L) :=
          Nat.div_le_div_right h1
      _ = bi.height := Nat.mul_div_cancel _ (Nat.mul_pos hP hm1)
  refine ⟨hmw, ?_, ?_⟩
  · intro b hb
    unfold resolveBlock at hb
    split at hb
    · rename_i hcond
      simp only [Option.some.injEq] at hb
      subst hb
      refine ⟨?_, ?_, rfl⟩
      · show (L / PAGE_SIZE / minPageWidth bi L) % U16 = L / PAGE_SIZE / minPageWidth bi L
        apply Nat.mod_eq_of_lt
        rw [hU16]
        generalize L / PAGE_SIZE / minPageWidth bi L = X at hhb ⊢
        omega
      · show (PAGE_SIZE * minPageWidth bi L / def_bpp bi.fmt) % U16 =
            PAGE_SIZE * minPageWidth bi L / def_bpp bi.fmt
        apply Nat.mod_eq_of_lt
        have hle : minPageWidth bi L ≤ bi.width / PAGE_SIZE :=
          le_trans hcond (maxPageWidth_le bi L)
        have hwn : bi.width < 65536 := by rw [← hU16]; exact hw
        have hwp : bi.width / PAGE_SIZE ≤ 15 := by
          rw [hPS]
          omega
        have hm15 : minPageWidth bi L ≤ 15 := le_trans hle hwp
        have h3 : PAGE_SIZE * minPageWidth bi L ≤ 61440 := by
          rw [hPS]
          generalize minPageWidth bi L = m at hm15 ⊢
          omega
        have h4 : PAGE_SIZE * minPageWidth bi L / def_bpp bi.fmt ≤
            PAGE_SIZE * minPageWidth bi L := Nat.div_le_self _ _
        rw [hU16]
        generalize PAGE_SIZE * minPageWidth bi L / def_bpp bi.fmt = Y at h4 ⊢
        generalize PAGE_SIZE * minPageWidth bi L = Z at h3 h4
        omega
    · exact absurd hb (by simp)
  · intro hf hwid hhei
    have e1 : maxAllocSize bi2 = maxAllocSize bi := by unfold maxAllocSize; rw [hhei]
    have e2 : minAllocSize bi2 = minAllocSize bi := by unfold minAllocSize; rw [e1, hf]
    have e3 : minPageWidth bi2 L = minPageWidth bi L := by unfold minPageWidth; rw [e1]
    have e4 : maxPageWidthRaw bi2 L = maxPageWidthRaw bi L := by unfold maxPageWidthRaw; rw [e2]
    have e5 : maxPageWidth bi2 L = maxPageWidth bi L := by unfold maxPageWidth; rw [e4, hwid]
    unfold resolveBlock
    rw [e3, e5, hf]
    split
    · simp [blockGeom]
    · rfl

/-- Witness for C3 at concrete inputs: the 8-bit pixel block biX with
reported height 64 and reported width 8192, caller length 262144, and
the variant biX2 differing only in ssptr and len. -/
theorem C3_witness :
    minPageWidth biX 262144 = (262144 + biX.height * PAGE_SIZE - 1) / (biX.height * PAGE_SIZE) ∧
    bX.height = 262144 / PAGE_SIZE / minPageWidth biX 262144 ∧
    bX.width = PAGE_SIZE * minPageWidth biX 262144 / def_bpp biX.fmt ∧
    bX.stride = bX.width ∧
    Option.map blockGeom (resolveBlock biX2 262144) = Option.map blockGeom (resolveBlock biX 262144) := by
  have h := C3_stride_resolution biX biX2 262144 (by decide) (by decide) (by decide)
    (by decide) (by decide) (by decide)
  exact ⟨h.1, (h.2.1 bX (by decide)).1, (h.2.1 bX (by decide)).2.1,
    (h.2.1 bX (by decide)).2.2, h.2.2 rfl rfl rfl⟩

/-- C5: block-count precondition.  A remap call with num_blocks <= 0 or
num_blocks > TILER_MAX_NUM_BLOCKS returns null immediately, leaves the
cache untouched and performs no driver interaction at all (the event
trace is empty, so no session is opened). -/
theorem C5_block_count_guard (env : RemapEnv) (nb : Int) (ds ls : Nat → Nat) (cache : Cache)
    (h : nb ≤ 0 ∨ (TILER_MAX_NUM_BLOCKS : Int) < nb) :
    tiler_assisted_phase1_D2CReMap env nb ds ls cache = (none, cache, []) := by
  unfold tiler_assisted_phase1_D2CReMap
  rw [if_pos h]

/-- Witness for C5 at the concrete out-of-range block counts 0 and 17. -/
theorem C5_witness :
    tiler_assisted_phase1_D2CReMap envOkW 0 dsW lsW [] = (none, [], []) ∧
    tiler_assisted_phase1_D2CReMap envOkW 17 dsW lsW [] = (none, [], []) :=
  ⟨C5_block_count_guard envOkW 0 dsW lsW [] (Or.inl (by decide)),
   C5_block_count_guard envOkW 17 dsW lsW [] (Or.inr (by decide))⟩

/-- C10: the translation is the identity.  The ssptr submitted to the
driver block query (recorded in the queryBlk event) is exactly the
caller-supplied device pointer, unchanged — no external translation
service is consulted (the SysLink call is commented out in the source) —
and the translation-fault path (failing with no query issued) is taken
exactly when the device pointer itself is zero. -/
theorem C10_identity_translation (env : RemapEnv) (ix d L : Nat) :
    (d ≠ 0 → (stepBlock env ix d L).1 = [Event.queryBlk ix d]) ∧
    (stepBlock env ix d L = ([], none) ↔ d = 0) := by
  constructor
  · exact fun hd => stepBlock_trace env ix d L hd
  · constructor
    · intro he
      by_contra hd
      have h1 := stepBlock_trace env ix d L hd
      rw [he] at h1
      simp at h1
    · intro hd
      subst hd
      rfl

/-- Witness for C10 at concrete inputs: a nonzero device pointer 5 is
submitted unchanged, and a zero device pointer faults with no query. -/
theorem C10_witness :
    (stepBlock envOkW 0 5 4096).1 = [Event.queryBlk 0 5] ∧
    stepBlock envOkW 1 0 4096 = ([], none) :=
  ⟨(C10_identity_translation envOkW 0 5 4096).1 (by decide),
   (C10_identity_translation envOkW 1 0 4096).2.mpr rfl⟩

/-- C1: round-trip at-most-once reversal.  After any successful remap
that returned pointer P with the registered buffer id cached, and with P
not previously cached, the first demap(P) finds a nonzero cached id and
removes the entry; afterwards the cache holds no entry for P, so a
second demap(P) hits the zero sentinel of remap_cache_del and returns
the generic error having performed neither an unregistration nor an
unmap. -/
theorem C1_roundtrip (env : RemapEnv) (denv1 denv2 : DemapEnv) (nb : Int)
    (ds ls : Nat → Nat) (cache cache₂ : Cache) (p : Nat) (evs : List Event)
    (hre : tiler_assisted_phase1_D2CReMap env nb ds ls cache = (some p, cache₂, evs))
    (hfresh : ∀ e ∈ cache, e.1 ≠ p)
    (ho1 : denv1.openOk = true) (ho2 : denv2.openOk = true) :
    (remap_cache_del cache₂ p).1 ≠ 0 ∧
    (∀ e ∈ (tiler_assisted_phase1_DeMap denv1 p cache₂).2.1, e.1 ≠ p) ∧
    tiler_assisted_phase1_DeMap denv2 p ((tiler_assisted_phase1_DeMap denv1 p cache₂).2.1) =
      (REMAP_ERR_GENERIC, (tiler_assisted_phase1_DeMap denv1 p cache₂).2.1,
       [Event.openSess, Event.closeSess]) ∧
    Event.urbuf ∉ (tiler_assisted_phase1_DeMap denv2 p
      ((tiler_assisted_phase1_DeMap denv1 p cache₂).2.1)).2.2 ∧
    ∀ a s, Event.munmapCall a s ∉ (tiler_assisted_phase1_DeMap denv2 p
      ((tiler_assisted_phase1_DeMap denv1 p cache₂).2.1)).2.2 := by
  obtain ⟨off, hoff, hc2⟩ := remap_success env nb ds ls cache p cache₂ evs hre
  subst hc2
  have hdel : remap_cache_del (cache ++ [(p, off)]) p = (off, cache) :=
    remap_cache_del_append cache p off hfresh
  have h1 : (remap_cache_del (cache ++ [(p, off)]) p).1 ≠ 0 := by rw [hdel]; exact hoff
  have hc3 : (tiler_assisted_phase1_DeMap denv1 p (cache ++ [(p, off)])).2.1 = cache := by
    rw [demap_cache_after_hit denv1 p _ ho1 h1, hdel]
  have hmiss : remap_cache_del cache p = (0, cache) := remap_cache_del_fresh cache p hfresh
  have h2 : tiler_assisted_phase1_DeMap denv2 p cache =
      (REMAP_ERR_GENERIC, cache, [Event.openSess, Event.closeSess]) := by
    have h3 := demap_miss_eq denv2 p cache ho2 (by rw [hmiss])
    rw [hmiss] at h3
    exact h3
  refine ⟨h1, ?_, ?_, ?_, ?_⟩
  · rw [hc3]; exact hfresh
  · rw [hc3]; exact h2
  · rw [hc3, h2]; simp
  · intro a s; rw [hc3, h2]; simp

/-- Witness for C1: a one-block remap through envOkW returns pointer
40965 cached with id 7; the first demap consumes the entry and the
second demap returns the generic error. -/
theorem C1_witness :
    (remap_cache_del [(40965, 7)] 40965).1 ≠ 0 ∧
    tiler_assisted_phase1_DeMap denvOkW 40965
        ((tiler_assisted_phase1_DeMap denvOkW 40965 [(40965, 7)]).2.1) =
      (REMAP_ERR_GENERIC, (tiler_assisted_phase1_DeMap denvOkW 40965 [(40965, 7)]).2.1,
       [Event.openSess, Event.closeSess]) := by
  have h := C1_roundtrip envOkW denvOkW denvOkW 1 dsW lsW [] [(40965, 7)] 40965
    [Event.openSess, Event.queryBlk 0 5, Event.rbuf, Event.mmapCall,
     Event.cacheAdd 40965 7, Event.closeSess] (by decide) (by simp) rfl rfl
  exact ⟨h.1, h.2.2.1⟩

/-- C4: mapping-failure cleanup.  When all blocks resolve, registration
succeeds with a nonzero offset, and the mapping step fails, remap
unregisters the buffer with the driver (the urbuf event precedes the
session close in the trace), returns null, leaves the cache unchanged and
creates no cache entry. -/
theorem C4_mmapFail_cleanup (env : RemapEnv) (nb : Int) (ds ls : Nat → Nat) (cache : Cache)
    (evs₀ : List Event) (bs : List BlockInfo) (off : Nat)
    (ho : env.openOk = true) (h0 : 0 < nb) (hmax : nb ≤ (TILER_MAX_NUM_BLOCKS : Int))
    (hblocks : processBlocks env ds ls 0 nb.toNat = (evs₀, some bs))
    (hreg : env.rbuf bs = some off) (hoff : off ≠ 0)
    (hmm : env.mmap (totalSize bs) off = none) :
    tiler_assisted_phase1_D2CReMap env nb ds ls cache =
      (none, cache,
       Event.openSess :: evs₀ ++ [Event.rbuf, Event.mmapCall, Event.urbuf, Event.closeSess]) ∧
    ∀ q i, Event.cacheAdd q i ∉ (tiler_assisted_phase1_D2CReMap env nb ds ls cache).2.2 := by
  have heq : tiler_assisted_phase1_D2CReMap env nb ds ls cache =
      (none, cache,
       Event.openSess :: evs₀ ++ [Event.rbuf, Event.mmapCall, Event.urbuf, Event.closeSess]) := by
    rw [remap_run env nb ds ls cache h0 hmax ho]
    exact remapBody_mmapFail env nb.toNat ds ls cache evs₀ bs off hblocks hreg hoff hmm
  refine ⟨heq, ?_⟩
  intro q i hmem
  rw [heq] at hmem
  simp at hmem
  obtain ⟨ix, d, hqe⟩ := processBlocks_events env ds ls nb.toNat 0 _ (by rw [hblocks]; exact hmem)
  simp at hqe

/-- Witness for C4: a one-block remap through envMF, whose mmap fails,
unregisters and returns null with an unchanged cache. -/
theorem C4_witness :
    tiler_assisted_phase1_D2CReMap envMF 1 dsW lsW [] =
      (none, [],
       Event.openSess :: [Event.queryBlk 0 5] ++
         [Event.rbuf, Event.mmapCall, Event.urbuf, Event.closeSess]) :=
  (C4_mmapFail_cleanup envMF 1 dsW lsW [] [Event.queryBlk 0 5] [blkQ] 7 rfl (by decide)
    (by decide) (by decide) rfl (by decide) rfl).1

/-- C6: translation-fault behaviour.  When the device pointer of some
reached block is zero, remap returns null, never attempts buffer
registration (no rbuf event), leaves the cache unchanged, and the driver
session that was opened is closed before returning. -/
theorem C6_translation_abort (env : RemapEnv) (nb : Int) (ds ls : Nat → Nat) (cache : Cache)
    (ix : Nat)
    (ho : env.openOk = true) (h0 : 0 < nb) (hmax : nb ≤ (TILER_MAX_NUM_BLOCKS : Int))
    (hix : ix < nb.toNat) (hz : ds ix = 0)
    (hreach : ∀ j, j < ix → ((stepBlock env j (ds j) (ls j)).2).isSome = true) :
    (tiler_assisted_phase1_D2CReMap env nb ds ls cache).1 = none ∧
    (tiler_assisted_phase1_D2CReMap env nb ds ls cache).2.1 = cache ∧
    Event.rbuf ∉ (tiler_assisted_phase1_D2CReMap env nb ds ls cache).2.2 ∧
    Event.openSess ∈ (tiler_assisted_phase1_D2CReMap env nb ds ls cache).2.2 ∧
    Event.closeSess ∈ (tiler_assisted_phase1_D2CReMap env nb ds ls cache).2.2 := by
  have hstep : (stepBlock env ix (ds ix) (ls ix)).2 = none := by
    rw [hz]; rfl
  have hpb : (processBlocks env ds ls 0 nb.toNat).2 = none :=
    processBlocks_reach_none env ds ls ix hstep nb.toNat 0 (Nat.zero_le _) (by omega)
      (fun j _ hj2 => hreach j hj2)
  have heq : tiler_assisted_phase1_D2CReMap env nb ds ls cache =
      (none, cache,
       Event.openSess :: (processBlocks env ds ls 0 nb.toNat).1 ++ [Event.closeSess]) := by
    rw [remap_run env nb ds ls cache h0 hmax ho]
    exact remapBody_fail env nb.toNat ds ls cache hpb
  refine ⟨by rw [heq], by rw [heq], ?_, by rw [heq]; simp, by rw [heq]; simp⟩
  intro hmem
  rw [heq] at hmem
  simp at hmem
  obtain ⟨ix2, d2, hqe⟩ := processBlocks_events env ds ls nb.toNat 0 _ hmem
  simp at hqe

/-- Witness for C6: a two-block remap whose second device pointer is
zero fails with the session opened and closed and no registration. -/
theorem C6_witness :
    (tiler_assisted_phase1_D2CReMap envOkW 2 dsW2 lsW []).1 = none ∧
    (tiler_assisted_phase1_D2CReMap envOkW 2 dsW2 lsW []).2.1 = [] ∧
    Event.rbuf ∉ (tiler_assisted_phase1_D2CReMap envOkW 2 dsW2 lsW []).2.2 ∧
    Event.openSess ∈ (tiler_assisted_phase1_D2CReMap envOkW 2 dsW2 lsW []).2.2 ∧
    Event.closeSess ∈ (tiler_assisted_phase1_D2CReMap envOkW 2 dsW2 lsW []).2.2 :=
  C6_translation_abort envOkW 2 dsW2 lsW [] 1 rfl (by decide) (by decide) (by decide) rfl
    (fun j hj => by
      have hj0 : j = 0 := by omega
      subst hj0
      decide)

/-- C7: demap unmapping semantics.  When the cache lookup recovers a
nonzero id and the driver buffer query succeeds, demap unmaps at the
page-aligned floor of the supplied pointer with length equal to the
accumulated block sizes; the unmap is attempted whatever result the
unregister ioctl returned (the urbuf result is unconstrained here), and
the unmap error is folded into the returned status through ERR_ADD
rather than replacing it. -/
theorem C7_demap_unmap_semantics (denv : DemapEnv) (p : Nat) (cache : Cache)
    (blks : List BlockInfo)
    (ho : denv.openOk = true)
    (hhit : (remap_cache_del cache p).1 ≠ 0)
    (hq : denv.qbuf (remap_cache_del cache p).1 = (0, blks)) :
    tiler_assisted_phase1_DeMap denv p cache =
      (ERR_ADD (denv.urbuf (remap_cache_del cache p).1)
         (denv.munmap (ROUND_DOWN_TO2POW p PAGE_SIZE) (totalSize blks)),
       (remap_cache_del cache p).2,
       [Event.openSess, Event.qbuf (remap_cache_del cache p).1, Event.urbuf,
        Event.munmapCall (ROUND_DOWN_TO2POW p PAGE_SIZE) (totalSize blks),
        Event.closeSess]) := by
  unfold tiler_assisted_phase1_DeMap
  rw [ho, if_pos rfl, if_pos hhit, hq]
  rw [if_pos rfl]

/-- Witness for C7: a demap through denvErr (unregister fails with 5,
unmap fails with 3) still unmaps 4096 bytes at 40960 and returns the
accumulated status. -/
theorem C7_witness :
    tiler_assisted_phase1_DeMap denvErr 40965 [(40965, 7)] =
      (ERR_ADD (denvErr.urbuf (remap_cache_del [(40965, 7)] 40965).1)
         (denvErr.munmap (ROUND_DOWN_TO2POW 40965 PAGE_SIZE) (totalSize [blkQ])),
       (remap_cache_del [(40965, 7)] 40965).2,
       [Event.openSess, Event.qbuf (remap_cache_del [(40965, 7)] 40965).1, Event.urbuf,
        Event.munmapCall (ROUND_DOWN_TO2POW 40965 PAGE_SIZE) (totalSize [blkQ]),
        Event.closeSess]) :=
  C7_demap_unmap_semantics denvErr 40965 [(40965, 7)] [blkQ] rfl (by decide) (by decide)

/-- C8: geometry-inconsistency faults are fatal for the call.  With the
consistency checks modelled from the spec as call-aborting, a reached
block whose clamped max_page_width falls below min_page_width, or whose
resolved descriptor fails the block-size postcondition, makes the
per-block finalisation fail, and the whole remap returns null with the
cache unchanged and no registration attempted; the model is a total
function, so the process itself is not aborted. -/
theorem C8_geometry_fault (env : RemapEnv) (nb : Int) (ds ls : Nat → Nat) (cache : Cache)
    (ix : Nat) (bi : BlockInfo)
    (ho : env.openOk = true) (h0 : 0 < nb) (hmax : nb ≤ (TILER_MAX_NUM_BLOCKS : Int))
    (hix : ix < nb.toNat) (hd : ds ix ≠ 0)
    (hq : env.query ix (ds ix) = some bi) (hs : bi.ssptr ≠ 0)
    (hfmt : bi.fmt ≠ PixelFmt.page)
    (hfault : maxPageWidth bi (ls ix) < minPageWidth bi (ls ix) ∨
      ∃ b, resolveBlock bi (ls ix) = some b ∧ def_size b ≠ ls ix)
    (hreach : ∀ j, j < ix → ((stepBlock env j (ds j) (ls j)).2).isSome = true) :
    finishBlock bi (ls ix) = none ∧
    (tiler_assisted_phase1_D2CReMap env nb ds ls cache).1 = none ∧
    (tiler_assisted_phase1_D2CReMap env nb ds ls cache).2.1 = cache ∧
    Event.rbuf ∉ (tiler_assisted_phase1_D2CReMap env nb ds ls cache).2.2 := by
  have hfin : finishBlock bi (ls ix) = none := by
    rcases hfault with hlt | ⟨b, hb, hne⟩
    · have hres : resolveBlock bi (ls ix) = none := by
        unfold resolveBlock
        rw [if_neg (by omega)]
      unfold finishBlock
      rw [if_neg hfmt, hres]
    · unfold finishBlock
      rw [if_neg hfmt, hb]
      simp [hne]
  have hstep : (stepBlock env ix (ds ix) (ls ix)).2 = none := by
    unfold stepBlock
    rw [if_neg hd, hq]
    simp [hs, hfin]
  have hpb : (processBlocks env ds ls 0 nb.toNat).2 = none :=
    processBlocks_reach_none env ds ls ix hstep nb.toNat 0 (Nat.zero_le _) (by omega)
      (fun j _ hj2 => hreach j hj2)
  have heq : tiler_assisted_phase1_D2CReMap env nb ds ls cache =
      (none, cache,
       Event.openSess :: (processBlocks env ds ls 0 nb.toNat).1 ++ [Event.closeSess]) := by
    rw [remap_run env nb ds ls cache h0 hmax ho]
    exact remapBody_fail env nb.toNat ds ls cache hpb
  refine ⟨hfin, by rw [heq], by rw [heq], ?_⟩
  intro hmem
  rw [heq] at hmem
  simp at hmem
  obtain ⟨ix2, d2, hqe⟩ := processBlocks_events env ds ls nb.toNat 0 _ hmem
  simp at hqe

/-- Witness for C8: the geometry-inconsistent block biGF (min_page_width
3, clamped max_page_width 1) aborts a one-block remap before
registration. -/
theorem C8_witness :
    finishBlock biGF (lsGF 0) = none ∧
    (tiler_assisted_phase1_D2CReMap envGF 1 dsW lsGF []).1 = none ∧
    (tiler_assisted_phase1_D2CReMap envGF 1 dsW lsGF []).2.1 = [] ∧
    Event.rbuf ∉ (tiler_assisted_phase1_D2CReMap envGF 1 dsW lsGF []).2.2 :=
  C8_geometry_fault envGF 1 dsW lsGF [] 0 biGF rfl (by decide) (by decide) (by decide)
    (by decide) rfl (by decide) (by decide) (Or.inl (by decide))
    (fun j hj => absurd hj (by omega))

/-- C9 counterexample: the claimed invariant (a cache entry exists iff
the buffer is currently both driver-registered and process-mapped, in
particular after a demap whose driver query fails) is false on the code.
Starting from the cache state produced by a successful remap, a demap
whose TILIOC_QBUF fails with code 5 removes the entry (the resulting
cache is empty) while performing neither an unregistration nor an unmap
(the trace holds no urbuf and no munmapCall event), so the buffer is
still registered and mapped but has no cache entry. -/
theorem C9_counterexample :
    tiler_assisted_phase1_DeMap denvQF 40965 [(40965, 7)] =
      (5, [], [Event.openSess, Event.qbuf 7, Event.closeSess]) := by
  decide

lemma remap_cache_del_sublist (c : Cache) (p : Nat) :
    List.Sublist (remap_cache_del c p).2 c := by
  induction c with
  | nil => simp [remap_cache_del]
  | cons a rest ih =>
    rcases a with ⟨q, id⟩
    by_cases hq : q = p
    · simp only [remap_cache_del, if_pos hq]
      exact List.Sublist.cons _ (List.Sublist.refl _)
    · simp only [remap_cache_del, if_neg hq]
      exact List.Sublist.cons₂ _ ih

/-- C9 (amended): the at-most-one-entry half of the invariant is
preserved by both operations (remap appends a pointer assumed fresh, and
demap only removes), but the existence iff fails in one direction: when
the cache lookup of demap recovers a nonzero id and the driver buffer
query then fails, the entry stays removed while demap performs neither
an unregistration nor an unmap and returns the query result code — so an
entry for P implies the buffer was registered and mapped when the entry
was created, but the absence of an entry does not imply the buffer was
released. -/
theorem C9_query_fault_behavior (denv : DemapEnv) (p : Nat) (cache : Cache)
    (ho : denv.openOk = true)
    (hhit : (remap_cache_del cache p).1 ≠ 0)
    (hqf : (denv.qbuf (remap_cache_del cache p).1).1 ≠ 0) :
    tiler_assisted_phase1_DeMap denv p cache =
      ((denv.qbuf (remap_cache_del cache p).1).1, (remap_cache_del cache p).2,
       [Event.openSess, Event.qbuf (remap_cache_del cache p).1, Event.closeSess]) ∧
    Event.urbuf ∉ (tiler_assisted_phase1_DeMap denv p cache).2.2 ∧
    (∀ a s, Event.munmapCall a s ∉ (tiler_assisted_phase1_DeMap denv p cache).2.2) ∧
    ((cache.map Prod.fst).Nodup →
      (((tiler_assisted_phase1_DeMap denv p cache).2.1).map Prod.fst).Nodup) ∧
    ∀ (env2 : RemapEnv) (nb : Int) (ds ls : Nat → Nat) (c₂ : Cache) (evs2 : List Event)
      (q : Nat),
      tiler_assisted_phase1_D2CReMap env2 nb ds ls cache = (some q, c₂, evs2) →
      (∀ e ∈ cache, e.1 ≠ q) → (cache.map Prod.fst).Nodup → (c₂.map Prod.fst).Nodup := by
  have heq : tiler_assisted_phase1_DeMap denv p cache =
      ((denv.qbuf (remap_cache_del cache p).1).1, (remap_cache_del cache p).2,
       [Event.openSess, Event.qbuf (remap_cache_del cache p).1, Event.closeSess]) := by
    unfold tiler_assisted_phase1_DeMap
    rw [ho, if_pos rfl, if_pos hhit, if_neg hqf]
  refine ⟨heq, ?_, ?_, ?_, ?_⟩
  · rw [heq]; simp
  · intro a s; rw [heq]; simp
  · intro hnd
    rw [heq]
    exact List.Nodup.sublist (List.Sublist.map _ (remap_cache_del_sublist cache p)) hnd
  · intro env2 nb ds ls c₂ evs2 q hre hfresh hnd
    obtain ⟨off, _hoff, hc⟩ := remap_success env2 nb ds ls cache q c₂ evs2 hre
    subst hc
    rw [List.map_append]
    refine List.Nodup.append hnd (List.nodup_singleton _) ?_
    intro a ha hb
    simp at hb
    subst hb
    obtain ⟨e, he, hee⟩ := List.mem_map.mp ha
    exact hfresh e he hee

/-- Witness for the amended C9 at the concrete query-failure demap. -/
theorem C9_amended_witness :
    tiler_assisted_phase1_DeMap denvQF 40965 [(40965, 7)] =
      ((denvQF.qbuf (remap_cache_del [(40965, 7)] 40965).1).1,
       (remap_cache_del [(40965, 7)] 40965).2,
       [Event.openSess, Event.qbuf (remap_cache_del [(40965, 7)] 40965).1,
        Event.closeSess]) ∧
    Event.urbuf ∉ (tiler_assisted_phase1_DeMap denvQF 40965 [(40965, 7)]).2.2 :=
  ⟨(C9_query_fault_behavior denvQF 40965 [(40965, 7)] rfl (by decide) (by decide)).1,
   (C9_query_fault_behavior denvQF 40965 [(40965, 7)] rfl (by decide) (by decide)).2.1⟩
